import Mathlib

/-!
# Verification of the expression IR-generation layer (lib/IRGen/GenExpr.cpp)

A shallow embedding of the expression-lowering layer of the compiler backend:
the dispatchers `emitRValue`, `emitExplodedRValue`, `emitLValue` and
`tryEmitAsLValue`, the declaration-reference resolver, the memory helpers
(`emitZeroInit`, `emitInit`, `emitRValueToMemory`, `emitIgnored`) and the
error-recovery value synthesizers (`emitFakeRValue`, `emitFakeLValue`,
`emitFakeExplosion`).

Stateful emission is modelled as explicit state threading through
`StateT IGFState (Except Fatal)`: the state records the diagnostics issued by
the error-reporting collaborator and the observable calls into the
instruction-building backend (stores, memsets); `llvm_unreachable` and failed
assertions become `Fatal` errors.  External collaborators that live in other
files of the repository (type layout, tuple construction, application
lowering, symbol resolution) are fields of an `Env` record, so every theorem
quantifies over their behaviour.
-/

namespace GenExpr

/-- LLVM types, as far as this lowering layer distinguishes them: the byte
type `i8` (so that `IGM.Int8PtrTy` is `ptr i8`), pointer formation
(`getPointerTo`), and otherwise opaque named types handed out by the
type-layout oracle. -/
inductive LLVMType : Type where
  | i8 : LLVMType
  | ptr : LLVMType → LLVMType
  | named : Nat → LLVMType
deriving DecidableEq

/-- LLVM values as this layer builds them: integer constants
(`llvm-ConstantInt-get`, `Builder.getInt8`, `Builder.getInt64`), float
constants (the literal payload kept opaque as a bit pattern), null constants
(`Constant.getNullValue`), undefined values (`UndefValue.get`), bit-casts,
and otherwise opaque values produced by collaborators (loaded scalars, local
slots, function addresses). -/
inductive Value : Type where
  | constInt : Int → Value
  | constFP : Nat → Value
  | nullValue : LLVMType → Value
  | undef : LLVMType → Value
  | bitcast : Value → LLVMType → Value
  | abstractVal : Nat → Value
deriving DecidableEq

/-- Either an ordered sequence of scalar values or a single aggregate address
(RValue, from RValue.h). -/
inductive RValue : Type where
  | scalars : List Value → RValue
  | aggregate : Value → RValue
deriving DecidableEq

/-- Factory building a scalar r-value from the given scalars (RValue.forScalars). -/
def RValue.forScalars (vs : List Value) : RValue := RValue.scalars vs

/-- Factory building an aggregate r-value from an address (RValue.forAggregate). -/
def RValue.forAggregate (v : Value) : RValue := RValue.aggregate v

/-- Whether an RValue is the aggregate-address form. -/
def RValue.isAggregate : RValue → Bool
  | RValue.scalars _ => false
  | RValue.aggregate _ => true

/-- The value schema of a type: either an ordered list of scalar slot types
or one aggregate type referenced by address (RValueSchema from RValue.h). -/
inductive RValueSchema : Type where
  | scalar : List LLVMType → RValueSchema
  | aggregate : LLVMType → RValueSchema
deriving DecidableEq

/-- Whether a schema is the scalar form. -/
def RValueSchema.isScalar : RValueSchema → Bool
  | RValueSchema.scalar _ => true
  | RValueSchema.aggregate _ => false

/-- The type-layout oracle result for one semantic type: its identity (for
naming the store operation it owns), its value schema, its storage type,
storage size and storage alignment. -/
structure TypeInfo : Type where
  id : Nat
  schema : RValueSchema
  storageType : LLVMType
  storageSize : Nat
  storageAlignment : Nat
deriving DecidableEq

/-- A pointer value paired with an alignment (Address). -/
structure Address : Type where
  address : Value
  alignment : Nat
deriving DecidableEq

/-- Modelled from the spec: LValue (LValue.h, not under src/) is "an address
annotated with the type whose storage it denotes"; this file only ever forms
one from an address via `emitAddressLValue`, so the model keeps exactly the
address it denotes. -/
structure LValue : Type where
  addr : Address
deriving DecidableEq

/-- Modelled from the spec: IRGenFunction.emitAddressLValue (not under src/)
wraps an Address as an LValue denoting that storage. -/
def emitAddressLValue (a : Address) : LValue := LValue.mk a

/-- The explosion kind tag carried by an Explosion (Explosion.h). -/
inductive ExplosionKind : Type where
  | minimal : ExplosionKind
  | maximal : ExplosionKind
deriving DecidableEq

/-- A mutable ordered queue of primitive scalar values tagged with an
explosion kind (Explosion.h); modelled as the kind plus the current queue
contents, threaded by value. -/
structure Explosion : Type where
  kind : ExplosionKind
  values : List Value
deriving DecidableEq

/-- Appends one scalar at the back of the queue (Explosion.add). -/
def Explosion.add (ex : Explosion) (v : Value) : Explosion :=
  Explosion.mk ex.kind (ex.values ++ [v])

/-- Appending a whole list of scalars at the back of the queue. -/
def Explosion.addAll (ex : Explosion) (vs : List Value) : Explosion :=
  Explosion.mk ex.kind (ex.values ++ vs)

/-- Tests whether the queue has been fully drained (Explosion.empty). -/
def Explosion.empty (ex : Explosion) : Bool := ex.values.isEmpty

/-- The fatal-error channel: llvm_unreachable, a failed assertion, or
draining an Explosion past empty.  These abort the compilation process. -/
inductive Fatal : Type where
  | unreachable : String → Fatal
  | assertFail : String → Fatal
  | underflow : Fatal
deriving DecidableEq

/-- Pops the front scalar (Explosion.claimNext); popping an empty explosion is
the underflow contract violation. -/
def Explosion.claimNext : Explosion → Except Fatal (Value × Explosion)
  | Explosion.mk _ [] => Except.error Fatal.underflow
  | Explosion.mk k (v :: vs) => Except.ok (v, Explosion.mk k vs)

/-- One recorded diagnostic of the error-reporting collaborator:
a source location and a message. -/
structure Diag : Type where
  loc : Nat
  msg : String
deriving DecidableEq

/-- An observable call into the instruction-building backend: a call into a
type's store operation (TypeInfo.store, with the id of the owning type), or
a memory-set (Builder.CreateMemSet with destination, fill value, size,
alignment and volatility). -/
inductive Event : Type where
  | storeCall : Nat → RValue → Address → Event
  | memset : Value → Value → Value → Nat → Bool → Event
deriving DecidableEq

/-- The mutable state of one function-lowering pass: the diagnostics issued
so far and the backend calls issued so far, both in order. -/
structure IGFState : Type where
  diags : List Diag
  events : List Event
deriving DecidableEq

/-- Record one diagnostic. -/
def IGFState.addDiag (s : IGFState) (d : Diag) : IGFState :=
  IGFState.mk (s.diags ++ [d]) s.events

/-- Record one backend call. -/
def IGFState.addEvent (s : IGFState) (ev : Event) : IGFState :=
  IGFState.mk s.diags (s.events ++ [ev])

/-- The lowering monad: state threading over the fatal-abort channel. -/
abbrev M (α : Type) : Type := StateT IGFState (Except Fatal) α

/-- The error-reporting collaborator: IRGenModule.unimplemented and
IRGenFunction.unimplemented both record a diagnostic tied to a source
location and let lowering continue. -/
def unimplemented (loc : Nat) (msg : String) : M Unit :=
  modify (fun s => s.addDiag (Diag.mk loc msg))

/-- An assert: a failed assertion is a fatal contract violation. -/
def ensure (b : Bool) (msg : String) : M Unit :=
  if b then pure () else throw (Fatal.assertFail msg)

/-- Semantic types are identified by opaque ids; the type-layout oracle of
the environment interprets them. -/
abbrev Ty : Type := Nat

/-- Declaration kinds, as dispatched on by this file (DeclKind). -/
inductive DeclKind : Type where
  | extensionDecl : DeclKind
  | importDecl : DeclKind
  | typeAlias : DeclKind
  | func : DeclKind
  | var : DeclKind
  | arg : DeclKind
  | elementRef : DeclKind
  | oneOfElement : DeclKind
deriving DecidableEq

/-- A resolved declaration as this file reads it: its identity, its kind,
and whether its declaration context is a local context (read for Var). -/
structure ValueDecl : Type where
  id : Nat
  kind : DeclKind
  isLocalContext : Bool
deriving DecidableEq

/-- The value-kind tag carried by every expression node after semantic
analysis (ValueKind): l-value or r-value. -/
inductive ValueKind : Type where
  | lvalue : ValueKind
  | rvalue : ValueKind
deriving DecidableEq

/-- The five application forms that share the ApplyExpr dispatch. -/
inductive ApplyForm : Type where
  | call : ApplyForm
  | unary : ApplyForm
  | binary : ApplyForm
  | constructorCall : ApplyForm
  | dotSyntaxCall : ApplyForm
deriving DecidableEq

/-- Expression nodes as this file dispatches on them.  Every node carries a
source location, a semantic type and a value-kind tag.  Sub-expressions are
kept only where this file itself recurses into them (load, grouping
parenthesis, oneof look-through); payloads this file hands whole to a
collaborator (true tuple elements, apply arguments, projection and shuffle
data) are opaque ids.  A TupleExpr with isGroupingParen true and its sole
element is the `paren` constructor; a TupleExpr with isGroupingParen false
is the `tuple` constructor. -/
inductive Expr : Type where
  | intLit : Nat → Ty → ValueKind → Int → Expr
  | floatLit : Nat → Ty → ValueKind → Nat → Expr
  | load : Nat → Ty → ValueKind → Expr → Expr
  | apply : Nat → Ty → ValueKind → ApplyForm → Nat → Expr
  | paren : Nat → Ty → ValueKind → Expr → Expr
  | tuple : Nat → Ty → ValueKind → Nat → Expr
  | tupleElement : Nat → Ty → ValueKind → Nat → Expr
  | tupleShuffle : Nat → Ty → ValueKind → Nat → Expr
  | lookThroughOneof : Nat → Ty → ValueKind → Expr → Expr
  | declRef : Nat → Ty → ValueKind → ValueDecl → Expr
  | funcExpr : Nat → Ty → ValueKind → Nat → Expr
  | closure : Nat → Ty → ValueKind → Nat → Expr
  | anonClosureArg : Nat → Ty → ValueKind → Nat → Expr
  | unchecked : Nat → Ty → ValueKind → Nat → Expr

/-- The source location of an expression (Expr.getLoc). -/
def Expr.getLoc : Expr → Nat
  | Expr.intLit l _ _ _ => l
  | Expr.floatLit l _ _ _ => l
  | Expr.load l _ _ _ => l
  | Expr.apply l _ _ _ _ => l
  | Expr.paren l _ _ _ => l
  | Expr.tuple l _ _ _ => l
  | Expr.tupleElement l _ _ _ => l
  | Expr.tupleShuffle l _ _ _ => l
  | Expr.lookThroughOneof l _ _ _ => l
  | Expr.declRef l _ _ _ => l
  | Expr.funcExpr l _ _ _ => l
  | Expr.closure l _ _ _ => l
  | Expr.anonClosureArg l _ _ _ => l
  | Expr.unchecked l _ _ _ => l

/-- The semantic type of an expression (Expr.getType). -/
def Expr.getType : Expr → Ty
  | Expr.intLit _ t _ _ => t
  | Expr.floatLit _ t _ _ => t
  | Expr.load _ t _ _ => t
  | Expr.apply _ t _ _ _ => t
  | Expr.paren _ t _ _ => t
  | Expr.tuple _ t _ _ => t
  | Expr.tupleElement _ t _ _ => t
  | Expr.tupleShuffle _ t _ _ => t
  | Expr.lookThroughOneof _ t _ _ => t
  | Expr.declRef _ t _ _ => t
  | Expr.funcExpr _ t _ _ => t
  | Expr.closure _ t _ _ => t
  | Expr.anonClosureArg _ t _ _ => t
  | Expr.unchecked _ t _ _ => t

/-- The value-kind classification of an expression (Expr.getValueKind). -/
def Expr.getValueKind : Expr → ValueKind
  | Expr.intLit _ _ v _ => v
  | Expr.floatLit _ _ v _ => v
  | Expr.load _ _ v _ => v
  | Expr.apply _ _ v _ _ => v
  | Expr.paren _ _ v _ => v
  | Expr.tuple _ _ v _ => v
  | Expr.tupleElement _ _ v _ => v
  | Expr.tupleShuffle _ _ v _ => v
  | Expr.lookThroughOneof _ _ v _ => v
  | Expr.declRef _ _ v _ => v
  | Expr.funcExpr _ _ v _ => v
  | Expr.closure _ _ v _ => v
  | Expr.anonClosureArg _ _ v _ => v
  | Expr.unchecked _ _ v _ => v

/-- One element of an explosion schema (ExplosionSchema): a scalar slot of a
given type, or an aggregate chunk of a given type. -/
inductive ExplosionSchemaElt : Type where
  | scalar : LLVMType → ExplosionSchemaElt
  | aggregate : LLVMType → ExplosionSchemaElt
deriving DecidableEq

/-- Modelled from the spec: the external collaborators this layer consumes,
interfaces only — the type-layout oracle (getFragileTypeInfo and the builtin
type tests behind the literal-emitter assertions), local and global symbol
resolution (IRGenFunction.getLocal, IRGenFunction.getGlobal,
IRGenModule.getAddrOfInjectionFunction), load-through-l-value (emitLoad),
function-reference materialization (emitRValueForFunction), the delegated
lowering collaborators for application, tuple-literal, tuple-element,
tuple-shuffle and oneof-look-through forms in their r-value, exploded and
l-value variants, aggregate decomposition for TypeInfo.explode, and the
explosion-schema report (getExplosionSchema).  None of these live in
GenExpr.cpp; every theorem quantifies over them. -/
structure Env : Type where
  typeInfo : Ty → TypeInfo
  isBuiltinInteger : Ty → Bool
  isBuiltinFloat : Ty → Bool
  getLocal : ValueDecl → Address
  getGlobal : ValueDecl → TypeInfo → M LValue
  emitLoad : LValue → TypeInfo → M RValue
  emitRValueForFunction : ValueDecl → M RValue
  getAddrOfInjectionFunction : ValueDecl → Value
  emitApplyExpr : ApplyForm → Nat → TypeInfo → M RValue
  emitExplodedApplyExpr : ApplyForm → Nat → Explosion → M Explosion
  emitTupleLiteral : Nat → TypeInfo → M RValue
  emitExplodedTupleLiteral : Nat → Explosion → M Explosion
  emitTupleElementRValue : Nat → TypeInfo → M RValue
  emitExplodedTupleElement : Nat → Explosion → M Explosion
  emitTupleElementLValue : Nat → TypeInfo → M LValue
  emitTupleShuffleExpr : Nat → TypeInfo → M RValue
  emitExplodedTupleShuffle : Nat → Explosion → M Explosion
  emitLookThroughOneofRValue : Expr → M RValue
  emitLookThroughOneofLValue : Expr → M LValue
  explodeAggregate : TypeInfo → Value → M (List Value)
  getExplosionSchema : TypeInfo → ExplosionKind → List ExplosionSchemaElt

/-- Emit an integer literal expression: asserts the type is a builtin
integer type and materializes the constant. -/
def emitIntegerLiteralExpr (env : Env) (ty : Ty) (value : Int) : M Value := do
  ensure (env.isBuiltinInteger ty) "type is BuiltinIntegerType"
  pure (Value.constInt value)

/-- Emit a float literal expression: asserts the type is a builtin float
type and materializes the constant. -/
def emitFloatLiteralExpr (env : Env) (ty : Ty) (value : Nat) : M Value := do
  ensure (env.isBuiltinFloat ty) "type is BuiltinFloatType"
  pure (Value.constFP value)

/-- Emit a fake l-value which obeys the given specification: an undefined
address of the pointer type to the storage type, at the storage alignment.
Only ever used for error recovery. -/
def emitFakeLValue (tinfo : TypeInfo) : LValue :=
  emitAddressLValue
    (Address.mk (Value.undef (LLVMType.ptr tinfo.storageType)) tinfo.storageAlignment)

/-- Emit a fake r-value which obeys the given specification: one undefined
scalar per slot of a scalar schema, or an undefined address of the pointer
type to the aggregate type.  Only ever used for error recovery. -/
def emitFakeRValue (tinfo : TypeInfo) : RValue :=
  match tinfo.schema with
  | RValueSchema.scalar tys => RValue.forScalars (tys.map Value.undef)
  | RValueSchema.aggregate aggTy => RValue.forAggregate (Value.undef (LLVMType.ptr aggTy))

/-- Emit a fake explosion contribution: one undefined value per element of
the explosion schema of the type at the explosion's kind, aggregates
contributing an undefined pointer. -/
def emitFakeExplosion (env : Env) (tinfo : TypeInfo) (ex : Explosion) : Explosion :=
  ex.addAll ((env.getExplosionSchema tinfo ex.kind).map (fun elt =>
    match elt with
    | ExplosionSchemaElt.aggregate t => Value.undef (LLVMType.ptr t)
    | ExplosionSchemaElt.scalar t => Value.undef t))

/-- Modelled from the spec: TypeInfo.store (GenType, not under src/) stores
an r-value to an address through the type's schema; the model records the
call into the backend as one observable event naming the owning type. -/
def TypeInfo.store (tinfo : TypeInfo) (rv : RValue) (addr : Address) : M Unit :=
  modify (fun s => s.addEvent (Event.storeCall tinfo.id rv addr))

/-- Records a memory-set call into the backend (Builder.CreateMemSet). -/
def createMemSet (dest : Value) (fill : Value) (size : Value) (align : Nat)
    (isVolatile : Bool) : M Unit :=
  modify (fun s => s.addEvent (Event.memset dest fill size align isVolatile))

/-- Emit a declaration reference as an l-value, dispatching on the
declaration kind (emitDeclRefLValue). -/
def emitDeclRefLValue (env : Env) (loc : Nat) (d : ValueDecl) (tinfo : TypeInfo) :
    M LValue :=
  match d.kind with
  | DeclKind.extensionDecl | DeclKind.importDecl | DeclKind.typeAlias =>
      throw (Fatal.unreachable "decl is not a value decl")
  | DeclKind.func =>
      throw (Fatal.unreachable "decl cannot be emitted as an l-value")
  | DeclKind.var =>
      if d.isLocalContext then
        pure (emitAddressLValue (env.getLocal d))
      else
        env.getGlobal d tinfo
  | DeclKind.arg =>
      pure (emitAddressLValue (env.getLocal d))
  | DeclKind.elementRef | DeclKind.oneOfElement => do
      unimplemented loc "emitting this decl as an l-value"
      pure (emitFakeLValue tinfo)

/-- Emit a declaration reference as an r-value, dispatching on the
declaration kind (emitDeclRefRValue). -/
def emitDeclRefRValue (env : Env) (loc : Nat) (d : ValueDecl) (tinfo : TypeInfo) :
    M RValue :=
  match d.kind with
  | DeclKind.extensionDecl | DeclKind.importDecl | DeclKind.typeAlias =>
      throw (Fatal.unreachable "decl is not a value decl")
  | DeclKind.arg | DeclKind.var => do
      let lv ← emitDeclRefLValue env loc d tinfo
      env.emitLoad lv tinfo
  | DeclKind.func =>
      env.emitRValueForFunction d
  | DeclKind.oneOfElement =>
      pure (RValue.forScalars
        [env.getAddrOfInjectionFunction d, Value.undef (LLVMType.ptr LLVMType.i8)])
  | DeclKind.elementRef => do
      unimplemented loc "emitting this decl as an r-value"
      pure (emitFakeRValue tinfo)

/-- Modelled from the spec: TypeInfo.explode (GenType, not under src/)
flattens an r-value into an explosion: a scalar r-value contributes its
scalars in order, an aggregate r-value decomposes through the
aggregate-decomposition collaborator. -/
def TypeInfo.explode (env : Env) (tinfo : TypeInfo) (rv : RValue) (ex : Explosion) :
    M Explosion :=
  match rv with
  | RValue.scalars vs => pure (ex.addAll vs)
  | RValue.aggregate addrVal => do
      let vs ← env.explodeAggregate tinfo addrVal
      pure (ex.addAll vs)

/-- Emit a declaration reference as an exploded r-value: look up the type
info for the reference's type, emit the r-value and flatten it into the
explosion (emitExplodedDeclRef). -/
def emitExplodedDeclRef (env : Env) (loc : Nat) (ty : Ty) (d : ValueDecl)
    (ex : Explosion) : M Explosion := do
  let tinfo := env.typeInfo ty
  let rv ← emitDeclRefRValue env loc d tinfo
  TypeInfo.explode env tinfo rv ex

/-- Emit the given expression as an r-value (emitRValue, two-argument form).
The expression need not actually have r-value kind.  The Tuple case of the
source delegates to emitTupleExpr in the tuple-specific file; its grouping
behaviour is inlined here per the definition of `emitTupleExpr` below. -/
def emitRValue (env : Env) (e : Expr) (tinfo : TypeInfo) : M RValue :=
  match e with
  | Expr.unchecked _ _ _ _ =>
      throw (Fatal.unreachable "these expression kinds should not survive to IR-gen")
  | Expr.load _ _ _ sub => emitRValue env sub tinfo
  | Expr.apply _ _ _ form data => env.emitApplyExpr form data tinfo
  | Expr.intLit _ ty _ value => do
      let v ← emitIntegerLiteralExpr env ty value
      pure (RValue.forScalars [v])
  | Expr.floatLit _ ty _ value => do
      let v ← emitFloatLiteralExpr env ty value
      pure (RValue.forScalars [v])
  | Expr.paren _ _ _ sub => emitRValue env sub tinfo
  | Expr.tuple _ _ _ data => env.emitTupleLiteral data tinfo
  | Expr.tupleElement _ _ _ data => env.emitTupleElementRValue data tinfo
  | Expr.tupleShuffle _ _ _ data => env.emitTupleShuffleExpr data tinfo
  | Expr.lookThroughOneof _ _ _ sub => env.emitLookThroughOneofRValue sub
  | Expr.declRef loc _ _ d => emitDeclRefRValue env loc d tinfo
  | Expr.funcExpr loc _ _ _ => do
      unimplemented loc "cannot generate r-values for this expression yet"
      pure (emitFakeRValue tinfo)
  | Expr.closure loc _ _ _ => do
      unimplemented loc "cannot generate r-values for this expression yet"
      pure (emitFakeRValue tinfo)
  | Expr.anonClosureArg loc _ _ _ => do
      unimplemented loc "cannot generate r-values for this expression yet"
      pure (emitFakeRValue tinfo)

/-- Modelled from the spec: emitTupleExpr (GenTuple, not under src/) receives
every TupleExpr from the r-value dispatcher; per the dispatch table of the
spec, a grouping-parenthesis tuple recurses into its sole element and a true
tuple delegates to the tuple-construction collaborator.  The Tuple cases of
`emitRValue` inline exactly this body. -/
def emitTupleExpr (env : Env) (e : Expr) (tinfo : TypeInfo) : M RValue :=
  match e with
  | Expr.paren _ _ _ sub => emitRValue env sub tinfo
  | Expr.tuple _ _ _ data => env.emitTupleLiteral data tinfo
  | _ => throw (Fatal.unreachable "emitTupleExpr requires a tuple expression")

/-- Emit the given expression as an r-value at the type info of its own
semantic type (emitRValue, one-argument form). -/
def emitRValueTop (env : Env) (e : Expr) : M RValue :=
  emitRValue env e (env.typeInfo e.getType)

/-- Emit the given expression as a flattened sequence of scalars appended
into the caller-supplied explosion (emitExplodedRValue). -/
def emitExplodedRValue (env : Env) (e : Expr) (ex : Explosion) : M Explosion :=
  match e with
  | Expr.unchecked _ _ _ _ =>
      throw (Fatal.unreachable "these expression kinds should not survive to IR-gen")
  | Expr.load _ _ _ sub => emitExplodedRValue env sub ex
  | Expr.paren _ _ _ sub => emitExplodedRValue env sub ex
  | Expr.tuple _ _ _ data => env.emitExplodedTupleLiteral data ex
  | Expr.tupleShuffle _ _ _ data => env.emitExplodedTupleShuffle data ex
  | Expr.tupleElement _ _ _ data => env.emitExplodedTupleElement data ex
  | Expr.apply _ _ _ form data => env.emitExplodedApplyExpr form data ex
  | Expr.intLit _ ty _ value => do
      let v ← emitIntegerLiteralExpr env ty value
      pure (ex.add v)
  | Expr.floatLit _ ty _ value => do
      let v ← emitFloatLiteralExpr env ty value
      pure (ex.add v)
  | Expr.lookThroughOneof _ _ _ sub => emitExplodedRValue env sub ex
  | Expr.declRef loc ty _ d => emitExplodedDeclRef env loc ty d ex
  | Expr.funcExpr loc ty _ _ => do
      unimplemented loc "cannot explode r-values for this expression yet"
      pure (emitFakeExplosion env (env.typeInfo ty) ex)
  | Expr.closure loc ty _ _ => do
      unimplemented loc "cannot explode r-values for this expression yet"
      pure (emitFakeExplosion env (env.typeInfo ty) ex)
  | Expr.anonClosureArg loc ty _ _ => do
      unimplemented loc "cannot explode r-values for this expression yet"
      pure (emitFakeExplosion env (env.typeInfo ty) ex)

/-- Emit the given expression, which must have primitive scalar type, as
that primitive scalar value: explode into a fresh minimal-kind explosion,
claim the single value, and assert the explosion is empty afterwards
(emitAsPrimitiveScalar). -/
def emitAsPrimitiveScalar (env : Env) (e : Expr) : M Value := do
  let ex ← emitExplodedRValue env e (Explosion.mk ExplosionKind.minimal [])
  match ex.claimNext with
  | Except.error f => throw f
  | Except.ok (v, rest) => do
      ensure rest.empty "explosion.empty()"
      pure v

/-- Emit the given expression as an l-value (emitLValue, two-argument form).
The expression must actually have l-value kind; the entry assertion models
that precondition as a fatal contract check. -/
def emitLValue (env : Env) (e : Expr) (tinfo : TypeInfo) : M LValue := do
  ensure (e.getValueKind == ValueKind.lvalue) "getValueKind == ValueKind::LValue"
  match e with
  | Expr.unchecked _ _ _ _ =>
      throw (Fatal.unreachable "these expression kinds should not survive to IR-gen")
  | Expr.apply loc _ _ form _ =>
      match form with
      | ApplyForm.call | ApplyForm.unary | ApplyForm.binary =>
          throw (Fatal.unreachable "these expression kinds should never be l-values")
      | ApplyForm.constructorCall | ApplyForm.dotSyntaxCall => do
          unimplemented loc "cannot generate l-values for this expression yet"
          pure (emitFakeLValue tinfo)
  | Expr.intLit _ _ _ _ | Expr.floatLit _ _ _ _ | Expr.tupleShuffle _ _ _ _
  | Expr.funcExpr _ _ _ _ | Expr.closure _ _ _ _ | Expr.anonClosureArg _ _ _ _
  | Expr.load _ _ _ _ =>
      throw (Fatal.unreachable "these expression kinds should never be l-values")
  | Expr.paren _ _ _ sub =>
      emitLValue env sub tinfo
  | Expr.tuple _ _ _ _ =>
      throw (Fatal.assertFail "emitting non-grouping tuple as l-value")
  | Expr.tupleElement _ _ _ data => env.emitTupleElementLValue data tinfo
  | Expr.lookThroughOneof _ _ _ sub => env.emitLookThroughOneofLValue sub
  | Expr.declRef loc _ _ d => emitDeclRefLValue env loc d tinfo

/-- Emit the given expression as an l-value at the type info of its own
semantic type (emitLValue, one-argument form). -/
def emitLValueTop (env : Env) (e : Expr) : M LValue :=
  emitLValue env e (env.typeInfo e.getType)

/-- Try to emit the given expression as an underlying l-value
(tryEmitAsLValue): if it is classified l-value it is emitted via emitLValue;
otherwise only a load (unwrapping to its sub-l-value) and a grouping
parenthesis (unwrapping recursively) are eligible, and every other kind
signals absence. -/
def tryEmitAsLValue (env : Env) (e : Expr) (tinfo : TypeInfo) : M (Option LValue) := do
  if e.getValueKind == ValueKind.lvalue then
    let lv ← emitLValue env e tinfo
    pure (some lv)
  else
    match e with
    | Expr.unchecked _ _ _ _ =>
        throw (Fatal.unreachable "these expression kinds should not survive to IR-gen")
    | Expr.load _ _ _ sub => do
        let lv ← emitLValue env sub tinfo
        pure (some lv)
    | Expr.apply _ _ _ _ _ | Expr.intLit _ _ _ _ | Expr.floatLit _ _ _ _
    | Expr.declRef _ _ _ _ | Expr.funcExpr _ _ _ _ | Expr.closure _ _ _ _
    | Expr.anonClosureArg _ _ _ _ =>
        pure none
    | Expr.paren _ _ _ sub =>
        tryEmitAsLValue env sub tinfo
    | Expr.tuple _ _ _ _ =>
        pure none
    | Expr.tupleElement _ _ _ _ | Expr.tupleShuffle _ _ _ _
    | Expr.lookThroughOneof _ _ _ _ =>
        pure none

/-- Emit an r-value directly into memory (emitRValueToMemory). -/
def emitRValueToMemory (env : Env) (e : Expr) (addr : Address) (tinfo : TypeInfo) :
    M Unit := do
  let rv ← emitRValue env e tinfo
  tinfo.store rv addr

/-- Emit an expression as an initializer for the given l-value (emitInit). -/
def emitInit (env : Env) (addr : Address) (e : Expr) (tinfo : TypeInfo) : M Unit :=
  emitRValueToMemory env e addr tinfo

/-- Zero-initialize the given l-value (emitZeroInit): a scalar schema gets
one explicit zero constant per slot through the type's store operation, an
aggregate schema gets a single non-volatile memory-set of byte zero over the
exact storage size at the address's alignment. -/
def emitZeroInit (addr : Address) (tinfo : TypeInfo) : M Unit :=
  match tinfo.schema with
  | RValueSchema.scalar tys =>
      tinfo.store (RValue.forScalars (tys.map Value.nullValue)) addr
  | RValueSchema.aggregate _ =>
      createMemSet (Value.bitcast addr.address (LLVMType.ptr LLVMType.i8))
        (Value.constInt 0) (Value.constInt (Int.ofNat tinfo.storageSize))
        addr.alignment false

/-- Emit an expression whose value is being ignored (emitIgnored): lowered
as an r-value for its side effects, result discarded. -/
def emitIgnored (env : Env) (e : Expr) : M Unit := do
  let _ ← emitRValueTop env e
  pure ()

/-- Expression kinds the emitLValue dispatcher declares can never be
l-values (the llvm_unreachable group of its switch): plain calls, unary and
binary operators, integer and float literals, tuple shuffles, function and
closure literals, anonymous closure arguments, and loads. -/
def neverAddressableKind : Expr → Bool
  | Expr.apply _ _ _ form _ =>
      (match form with
       | ApplyForm.call | ApplyForm.unary | ApplyForm.binary => true
       | _ => false)
  | Expr.intLit _ _ _ _ => true
  | Expr.floatLit _ _ _ _ => true
  | Expr.load _ _ _ _ => true
  | Expr.tupleShuffle _ _ _ _ => true
  | Expr.funcExpr _ _ _ _ => true
  | Expr.closure _ _ _ _ => true
  | Expr.anonClosureArg _ _ _ _ => true
  | _ => false

/-- Whether an expression is a call (any application form) or an operator
expression or an integer or float literal: the kinds the opportunistic
l-value probe must always decline. -/
def isCallOperatorOrLiteral : Expr → Bool
  | Expr.apply _ _ _ _ _ => true
  | Expr.intLit _ _ _ _ => true
  | Expr.floatLit _ _ _ _ => true
  | _ => false

/-- A concrete scalar-schema type layout used to evaluate the theorems on
closed inputs. -/
def defaultTypeInfo : TypeInfo :=
  TypeInfo.mk 0 (RValueSchema.scalar [LLVMType.named 0]) (LLVMType.named 0) 4 4

/-- A concrete aggregate-schema type layout used to evaluate the theorems on
closed inputs. -/
def aggTypeInfo : TypeInfo :=
  TypeInfo.mk 1 (RValueSchema.aggregate (LLVMType.named 1)) (LLVMType.named 1) 8 4

/-- A concrete environment giving every collaborator a simple executable
behaviour, used to evaluate the theorems on closed inputs. -/
def defaultEnv : Env :=
  Env.mk
    (fun _ => defaultTypeInfo)
    (fun _ => true)
    (fun _ => true)
    (fun d => Address.mk (Value.abstractVal d.id) 4)
    (fun d _ => pure (emitAddressLValue (Address.mk (Value.abstractVal d.id) 4)))
    (fun lv _ => pure (RValue.forScalars [lv.addr.address]))
    (fun d => pure (RValue.forScalars [Value.abstractVal d.id]))
    (fun d => Value.abstractVal d.id)
    (fun _ _ _ => pure (RValue.forScalars []))
    (fun _ _ ex => pure ex)
    (fun _ _ => pure (RValue.forScalars []))
    (fun _ ex => pure ex)
    (fun _ _ => pure (RValue.forScalars []))
    (fun _ ex => pure ex)
    (fun _ t => pure (emitFakeLValue t))
    (fun _ _ => pure (RValue.forScalars []))
    (fun _ ex => pure ex)
    (fun _ => pure (RValue.forScalars []))
    (fun _ => pure (emitFakeLValue defaultTypeInfo))
    (fun _ v => pure [v])
    (fun _ _ => [ExplosionSchemaElt.scalar (LLVMType.named 0)])

/-- An empty lowering state: no diagnostics, no backend calls yet. -/
def s0 : IGFState := IGFState.mk [] []

/-- A concrete address used to evaluate the theorems on closed inputs. -/
def addr0 : Address := Address.mk (Value.abstractVal 0) 8

/-- A concrete local variable declaration. -/
def dVar : ValueDecl := ValueDecl.mk 7 DeclKind.var true

/-- A concrete sum-type constructor-case declaration. -/
def dOneOf : ValueDecl := ValueDecl.mk 9 DeclKind.oneOfElement false

/-- A concrete element-reference declaration. -/
def dElemRef : ValueDecl := ValueDecl.mk 3 DeclKind.elementRef false

/-- A concrete l-value-kind reference to the local variable `dVar`. -/
def eLocal : Expr := Expr.declRef 1 0 ValueKind.lvalue dVar

/-- Running a bind of the lowering monad on a state: the continuation sees
the result and state of the first computation unless it faulted. -/
theorem M.runBind (α β : Type) (x : M α) (f : α → M β) (s : IGFState) :
    (x >>= f) s = (match x s with
      | Except.error er => Except.error er
      | Except.ok p => f p.1 p.2) := by
  cases h : x s with
  | error er => simp [Bind.bind, StateT.bind, h, Except.bind]
  | ok p => simp [Bind.bind, StateT.bind, h, Except.bind]

/-- Shared helper: an l-value request on any expression classified r-value
faults on the entry assertion of emitLValue. -/
theorem emitLValue_rvalue_assert (env : Env) (e : Expr) (tinfo : TypeInfo) (s : IGFState)
    (h : e.getValueKind = ValueKind.rvalue) :
    emitLValue env e tinfo s =
      Except.error (Fatal.assertFail "getValueKind == ValueKind::LValue") := by
  cases e <;>
    simp only [Expr.getValueKind] at h <;>
    simp [emitLValue, ensure, h, Expr.getValueKind, throw, throwThe, MonadExceptOf.throw,
      Bind.bind, StateT.bind, StateT.lift, Except.bind]

/-- C1: for every integer-literal, float-literal and declaration-reference
expression, flattening the RValue returned by emitRValue into a fresh
Explosion yields exactly the ordered scalars that emitExplodedRValue appends
into a fresh Explosion on the same input. -/
theorem C1_rvalue_exploded_equiv (env : Env) (e : Expr) (k : ExplosionKind)
    (h : (∃ l t v n, e = Expr.intLit l t v n) ∨ (∃ l t v n, e = Expr.floatLit l t v n) ∨
         (∃ l t v d, e = Expr.declRef l t v d)) :
    (emitRValueTop env e >>= fun rv =>
       TypeInfo.explode env (env.typeInfo e.getType) rv (Explosion.mk k [])) =
    emitExplodedRValue env e (Explosion.mk k []) := by
  rcases h with ⟨l, t, v, n, rfl⟩ | ⟨l, t, v, n, rfl⟩ | ⟨l, t, v, d, rfl⟩ <;>
    simp [emitRValueTop, emitRValue, emitExplodedRValue, emitExplodedDeclRef,
      TypeInfo.explode, emitIntegerLiteralExpr, emitFloatLiteralExpr, Expr.getType,
      ensure, Explosion.add, Explosion.addAll, RValue.forScalars, bind_assoc,
      bind_pure_comp, map_pure]

/-- Witness for C1 at the integer literal 42 under the concrete environment. -/
theorem C1_witness :
    (emitRValueTop defaultEnv (Expr.intLit 0 0 ValueKind.rvalue 42) >>= fun rv =>
       TypeInfo.explode defaultEnv (defaultEnv.typeInfo 0) rv
         (Explosion.mk ExplosionKind.minimal [])) =
    emitExplodedRValue defaultEnv (Expr.intLit 0 0 ValueKind.rvalue 42)
      (Explosion.mk ExplosionKind.minimal []) :=
  C1_rvalue_exploded_equiv defaultEnv (Expr.intLit 0 0 ValueKind.rvalue 42)
    ExplosionKind.minimal (Or.inl ⟨0, 0, ValueKind.rvalue, 42, rfl⟩)

/-- C2: lowering a single-element grouping-parenthesis tuple as r-value and
as exploded scalars is identical to lowering the inner expression directly,
whatever the node's value-kind classification; and as l-value it is likewise
identical whenever the node is classified l-value-kind, which the entry
assertion of emitLValue requires of every argument. -/
theorem C2_grouping_paren_transparent (env : Env) (l : Nat) (t : Ty) (v : ValueKind)
    (sub : Expr) (tinfo : TypeInfo) (ex : Explosion) :
    emitRValue env (Expr.paren l t v sub) tinfo = emitRValue env sub tinfo ∧
    emitExplodedRValue env (Expr.paren l t v sub) ex = emitExplodedRValue env sub ex ∧
    (v = ValueKind.lvalue →
       emitLValue env (Expr.paren l t v sub) tinfo = emitLValue env sub tinfo) := by
  refine ⟨rfl, rfl, ?_⟩
  intro h
  subst h
  simp [emitLValue, ensure, Expr.getValueKind]

/-- Witness for C2 at a grouping parenthesis around a local-variable
reference under the concrete environment, in both classifications. -/
theorem C2_witness :
    emitLValue defaultEnv (Expr.paren 0 0 ValueKind.lvalue eLocal) defaultTypeInfo s0 =
      emitLValue defaultEnv eLocal defaultTypeInfo s0 ∧
    emitRValue defaultEnv (Expr.paren 0 0 ValueKind.rvalue eLocal) defaultTypeInfo s0 =
      emitRValue defaultEnv eLocal defaultTypeInfo s0 :=
  And.intro
    (congrFun ((C2_grouping_paren_transparent defaultEnv 0 0 ValueKind.lvalue eLocal
      defaultTypeInfo (Explosion.mk ExplosionKind.minimal [])).2.2 rfl) s0)
    (congrFun ((C2_grouping_paren_transparent defaultEnv 0 0 ValueKind.rvalue eLocal
      defaultTypeInfo (Explosion.mk ExplosionKind.minimal [])).1) s0)

/-- C3: tryEmitAsLValue returns a present l-value only when the expression
is classified l-value-kind, or is a load whose sub-expression emits as an
l-value, or is a grouping parenthesis whose sole element the probe again
accepts; and on r-value-kind call, operator and literal expressions it
always returns absent without touching the state. -/
theorem C3_tryEmitAsLValue_sound (env : Env) (e : Expr) (tinfo : TypeInfo) (s : IGFState) :
    (∀ lv s2, tryEmitAsLValue env e tinfo s = Except.ok (some lv, s2) →
       e.getValueKind = ValueKind.lvalue ∨
       (∃ l t v sub, e = Expr.load l t v sub ∧
          emitLValue env sub tinfo s = Except.ok (lv, s2)) ∨
       (∃ l t v sub, e = Expr.paren l t v sub ∧
          tryEmitAsLValue env sub tinfo s = Except.ok (some lv, s2))) ∧
    ((e.getValueKind = ValueKind.rvalue ∧ isCallOperatorOrLiteral e = true) →
       tryEmitAsLValue env e tinfo s = Except.ok (none, s)) := by
  constructor
  · intro lv s2 hok
    by_cases hvk : e.getValueKind = ValueKind.lvalue
    · exact Or.inl hvk
    · have hvk2 : e.getValueKind = ValueKind.rvalue := by
        cases hg : e.getValueKind with
        | lvalue => exact absurd hg hvk
        | rvalue => rfl
      cases e with
      | load l t v sub =>
          refine Or.inr (Or.inl ⟨l, t, v, sub, rfl, ?_⟩)
          simp only [Expr.getValueKind] at hvk2
          subst hvk2
          simp only [tryEmitAsLValue, Expr.getValueKind] at hok
          rw [if_neg (by simp)] at hok
          rw [show (do
                let lv ← emitLValue env sub tinfo
                pure (some lv) : M (Option LValue)) s =
              (match emitLValue env sub tinfo s with
                | Except.error er => Except.error er
                | Except.ok p => Except.ok (some p.1, p.2)) from by
            rw [M.runBind]
            cases emitLValue env sub tinfo s with
            | error er => rfl
            | ok p => rfl] at hok
          cases hsub : emitLValue env sub tinfo s with
          | error f => simp [hsub] at hok
          | ok p =>
              obtain ⟨a, s1⟩ := p
              simp [hsub] at hok
              rw [hok.1, hok.2]
      | paren l t v sub =>
          refine Or.inr (Or.inr ⟨l, t, v, sub, rfl, ?_⟩)
          simp only [Expr.getValueKind] at hvk2
          subst hvk2
          simpa only [tryEmitAsLValue, Expr.getValueKind] using hok
      | apply l t v form data =>
          simp only [Expr.getValueKind] at hvk2
          subst hvk2
          simp [tryEmitAsLValue, Expr.getValueKind, pure, StateT.pure, Except.pure] at hok
      | intLit l t v n =>
          simp only [Expr.getValueKind] at hvk2
          subst hvk2
          simp [tryEmitAsLValue, Expr.getValueKind, pure, StateT.pure, Except.pure] at hok
      | floatLit l t v n =>
          simp only [Expr.getValueKind] at hvk2
          subst hvk2
          simp [tryEmitAsLValue, Expr.getValueKind, pure, StateT.pure, Except.pure] at hok
      | declRef l t v d =>
          simp only [Expr.getValueKind] at hvk2
          subst hvk2
          simp [tryEmitAsLValue, Expr.getValueKind, pure, StateT.pure, Except.pure] at hok
      | funcExpr l t v d =>
          simp only [Expr.getValueKind] at hvk2
          subst hvk2
          simp [tryEmitAsLValue, Expr.getValueKind, pure, StateT.pure, Except.pure] at hok
      | closure l t v d =>
          simp only [Expr.getValueKind] at hvk2
          subst hvk2
          simp [tryEmitAsLValue, Expr.getValueKind, pure, StateT.pure, Except.pure] at hok
      | anonClosureArg l t v d =>
          simp only [Expr.getValueKind] at hvk2
          subst hvk2
          simp [tryEmitAsLValue, Expr.getValueKind, pure, StateT.pure, Except.pure] at hok
      | tuple l t v d =>
          simp only [Expr.getValueKind] at hvk2
          subst hvk2
          simp [tryEmitAsLValue, Expr.getValueKind, pure, StateT.pure, Except.pure] at hok
      | tupleElement l t v d =>
          simp only [Expr.getValueKind] at hvk2
          subst hvk2
          simp [tryEmitAsLValue, Expr.getValueKind, pure, StateT.pure, Except.pure] at hok
      | tupleShuffle l t v d =>
          simp only [Expr.getValueKind] at hvk2
          subst hvk2
          simp [tryEmitAsLValue, Expr.getValueKind, pure, StateT.pure, Except.pure] at hok
      | lookThroughOneof l t v sub =>
          simp only [Expr.getValueKind] at hvk2
          subst hvk2
          simp [tryEmitAsLValue, Expr.getValueKind, pure, StateT.pure, Except.pure] at hok
      | unchecked l t v d =>
          simp only [Expr.getValueKind] at hvk2
          subst hvk2
          simp [tryEmitAsLValue, Expr.getValueKind, throw, throwThe, MonadExceptOf.throw,
            StateT.lift, Except.bind] at hok
  · rintro ⟨hvk, hkind⟩
    cases e <;> simp [isCallOperatorOrLiteral] at hkind <;>
      simp only [Expr.getValueKind] at hvk <;> subst hvk <;>
      simp [tryEmitAsLValue, Expr.getValueKind, pure, StateT.pure, Except.pure]

/-- Witness for C3: the probe declines the r-value literal 3 and accepts a
load of a local variable, reporting one of the sanctioned unwrap forms. -/
theorem C3_witness :
    tryEmitAsLValue defaultEnv (Expr.intLit 0 0 ValueKind.rvalue 3) defaultTypeInfo s0 =
      Except.ok (none, s0) ∧
    ((Expr.load 0 0 ValueKind.rvalue eLocal).getValueKind = ValueKind.lvalue ∨
     (∃ l t v sub, Expr.load 0 0 ValueKind.rvalue eLocal = Expr.load l t v sub ∧
        emitLValue defaultEnv sub defaultTypeInfo s0 =
          Except.ok (emitAddressLValue (Address.mk (Value.abstractVal 7) 4), s0)) ∨
     (∃ l t v sub, Expr.load 0 0 ValueKind.rvalue eLocal = Expr.paren l t v sub ∧
        tryEmitAsLValue defaultEnv sub defaultTypeInfo s0 =
          Except.ok (some (emitAddressLValue (Address.mk (Value.abstractVal 7) 4)), s0))) :=
  And.intro
    ((C3_tryEmitAsLValue_sound defaultEnv (Expr.intLit 0 0 ValueKind.rvalue 3)
      defaultTypeInfo s0).2 (And.intro rfl rfl))
    ((C3_tryEmitAsLValue_sound defaultEnv (Expr.load 0 0 ValueKind.rvalue eLocal)
      defaultTypeInfo s0).1
      (emitAddressLValue (Address.mk (Value.abstractVal 7) 4)) s0 rfl)

/-- C4: emitZeroInit on a scalar-schema type issues exactly one call into
the type's store operation carrying one explicit zero constant per scalar
slot; on an aggregate-schema type it issues exactly one non-volatile
memory-set of byte zero covering precisely the storage size at the address's
alignment. -/
theorem C4_emitZeroInit_schema (tinfo : TypeInfo) (addr : Address) (s : IGFState) :
    (∀ tys, tinfo.schema = RValueSchema.scalar tys →
       emitZeroInit addr tinfo s =
         Except.ok ((), s.addEvent (Event.storeCall tinfo.id
           (RValue.forScalars (tys.map Value.nullValue)) addr))) ∧
    (∀ aggTy, tinfo.schema = RValueSchema.aggregate aggTy →
       emitZeroInit addr tinfo s =
         Except.ok ((), s.addEvent (Event.memset
           (Value.bitcast addr.address (LLVMType.ptr LLVMType.i8))
           (Value.constInt 0) (Value.constInt (Int.ofNat tinfo.storageSize))
           addr.alignment false))) := by
  constructor
  · intro tys h
    simp [emitZeroInit, h, TypeInfo.store, modify, modifyGet, MonadStateOf.modifyGet,
      StateT.modifyGet]
    rfl
  · intro aggTy h
    simp [emitZeroInit, h, createMemSet, modify, modifyGet, MonadStateOf.modifyGet,
      StateT.modifyGet]
    rfl

/-- Witness for C4 at a concrete scalar type and a concrete aggregate type. -/
theorem C4_witness :
    emitZeroInit addr0 defaultTypeInfo s0 =
      Except.ok ((), s0.addEvent (Event.storeCall defaultTypeInfo.id
        (RValue.forScalars ([LLVMType.named 0].map Value.nullValue)) addr0)) ∧
    emitZeroInit addr0 aggTypeInfo s0 =
      Except.ok ((), s0.addEvent (Event.memset
        (Value.bitcast addr0.address (LLVMType.ptr LLVMType.i8))
        (Value.constInt 0) (Value.constInt (Int.ofNat aggTypeInfo.storageSize))
        addr0.alignment false)) :=
  And.intro
    ((C4_emitZeroInit_schema defaultTypeInfo addr0 s0).1 [LLVMType.named 0] rfl)
    ((C4_emitZeroInit_schema aggTypeInfo addr0 s0).2 (LLVMType.named 1) rfl)

/-- C5: a declaration reference to a sum-type constructor case produces an
r-value of exactly two scalars, the injection-function pointer from the
dedicated lookup and an undefined i8-pointer context, never an aggregate
address, and with no state change. -/
theorem C5_oneof_injection_pair (env : Env) (loc : Nat) (d : ValueDecl) (tinfo : TypeInfo)
    (s : IGFState) (h : d.kind = DeclKind.oneOfElement) :
    emitDeclRefRValue env loc d tinfo s =
      Except.ok (RValue.forScalars
        [env.getAddrOfInjectionFunction d, Value.undef (LLVMType.ptr LLVMType.i8)], s) ∧
    (RValue.forScalars [env.getAddrOfInjectionFunction d,
        Value.undef (LLVMType.ptr LLVMType.i8)]).isAggregate = false := by
  constructor
  · simp [emitDeclRefRValue, h, pure, StateT.pure]
    rfl
  · simp [RValue.forScalars, RValue.isAggregate]

/-- Witness for C5 at a concrete constructor-case declaration. -/
theorem C5_witness :
    emitDeclRefRValue defaultEnv 0 dOneOf defaultTypeInfo s0 =
      Except.ok (RValue.forScalars
        [defaultEnv.getAddrOfInjectionFunction dOneOf,
         Value.undef (LLVMType.ptr LLVMType.i8)], s0) ∧
    (RValue.forScalars [defaultEnv.getAddrOfInjectionFunction dOneOf,
        Value.undef (LLVMType.ptr LLVMType.i8)]).isAggregate = false :=
  C5_oneof_injection_pair defaultEnv 0 dOneOf defaultTypeInfo s0 rfl

/-- C6 counterexample: an l-value request on a plain call expression (even
one classified l-value-kind) does not take the unimplemented error-recovery
path; it is a fatal llvm_unreachable abort. -/
theorem C6_counterexample :
    emitLValue defaultEnv (Expr.apply 0 0 ValueKind.lvalue ApplyForm.call 0)
      defaultTypeInfo s0 =
    Except.error (Fatal.unreachable "these expression kinds should never be l-values") := rfl

/-- C6 amended: only the constructor-call and dot-syntax-call application
forms requested as l-values take the unimplemented error-recovery path,
recording one diagnostic and returning the placeholder l-value; the plain
call, unary and binary forms abort fatally. -/
theorem C6_amended_recovery (env : Env) (l : Nat) (t : Ty) (form : ApplyForm) (data : Nat)
    (tinfo : TypeInfo) (s : IGFState)
    (h : form = ApplyForm.constructorCall ∨ form = ApplyForm.dotSyntaxCall) :
    emitLValue env (Expr.apply l t ValueKind.lvalue form data) tinfo s =
      Except.ok (emitFakeLValue tinfo,
        s.addDiag (Diag.mk l "cannot generate l-values for this expression yet")) := by
  rcases h with rfl | rfl <;>
    (simp [emitLValue, ensure, Expr.getValueKind, unimplemented, modify, modifyGet,
      MonadStateOf.modifyGet, StateT.modifyGet]; rfl)

/-- Witness for the amended C6 at a concrete constructor call. -/
theorem C6_witness :
    emitLValue defaultEnv (Expr.apply 0 0 ValueKind.lvalue ApplyForm.constructorCall 0)
      defaultTypeInfo s0 =
      Except.ok (emitFakeLValue defaultTypeInfo,
        s0.addDiag (Diag.mk 0 "cannot generate l-values for this expression yet")) :=
  C6_amended_recovery defaultEnv 0 0 ApplyForm.constructorCall 0 defaultTypeInfo s0
    (Or.inl rfl)

/-- C7: emitLValue requires its argument to be classified l-value-kind — an
r-value-kind argument faults on the entry assertion — and on every
expression kind that can never be addressable the outcome is a fatal abort,
never a recoverable result. -/
theorem C7_emitLValue_precondition (env : Env) (e : Expr) (tinfo : TypeInfo) (s : IGFState) :
    (e.getValueKind = ValueKind.rvalue →
       emitLValue env e tinfo s =
         Except.error (Fatal.assertFail "getValueKind == ValueKind::LValue")) ∧
    (neverAddressableKind e = true →
       ∃ f, emitLValue env e tinfo s = Except.error f) := by
  constructor
  · exact emitLValue_rvalue_assert env e tinfo s
  · intro h
    cases hvk : e.getValueKind with
    | rvalue => exact ⟨_, emitLValue_rvalue_assert env e tinfo s hvk⟩
    | lvalue =>
        refine ⟨Fatal.unreachable "these expression kinds should never be l-values", ?_⟩
        cases e with
        | apply l t v form data =>
            simp only [Expr.getValueKind] at hvk
            subst hvk
            cases form <;> simp [neverAddressableKind] at h <;>
              simp [emitLValue, ensure, Expr.getValueKind, throw, throwThe,
                MonadExceptOf.throw, Bind.bind, StateT.bind, StateT.lift, Except.bind,
                pure, StateT.pure, Except.pure]
        | intLit l t v n =>
            simp only [Expr.getValueKind] at hvk
            subst hvk
            simp [emitLValue, ensure, Expr.getValueKind, throw, throwThe,
              MonadExceptOf.throw, Bind.bind, StateT.bind, StateT.lift, Except.bind,
              pure, StateT.pure, Except.pure]
        | floatLit l t v n =>
            simp only [Expr.getValueKind] at hvk
            subst hvk
            simp [emitLValue, ensure, Expr.getValueKind, throw, throwThe,
              MonadExceptOf.throw, Bind.bind, StateT.bind, StateT.lift, Except.bind,
              pure, StateT.pure, Except.pure]
        | load l t v sub =>
            simp only [Expr.getValueKind] at hvk
            subst hvk
            simp [emitLValue, ensure, Expr.getValueKind, throw, throwThe,
              MonadExceptOf.throw, Bind.bind, StateT.bind, StateT.lift, Except.bind,
              pure, StateT.pure, Except.pure]
        | tupleShuffle l t v d =>
            simp only [Expr.getValueKind] at hvk
            subst hvk
            simp [emitLValue, ensure, Expr.getValueKind, throw, throwThe,
              MonadExceptOf.throw, Bind.bind, StateT.bind, StateT.lift, Except.bind,
              pure, StateT.pure, Except.pure]
        | funcExpr l t v d =>
            simp only [Expr.getValueKind] at hvk
            subst hvk
            simp [emitLValue, ensure, Expr.getValueKind, throw, throwThe,
              MonadExceptOf.throw, Bind.bind, StateT.bind, StateT.lift, Except.bind,
              pure, StateT.pure, Except.pure]
        | closure l t v d =>
            simp only [Expr.getValueKind] at hvk
            subst hvk
            simp [emitLValue, ensure, Expr.getValueKind, throw, throwThe,
              MonadExceptOf.throw, Bind.bind, StateT.bind, StateT.lift, Except.bind,
              pure, StateT.pure, Except.pure]
        | anonClosureArg l t v d =>
            simp only [Expr.getValueKind] at hvk
            subst hvk
            simp [emitLValue, ensure, Expr.getValueKind, throw, throwThe,
              MonadExceptOf.throw, Bind.bind, StateT.bind, StateT.lift, Except.bind,
              pure, StateT.pure, Except.pure]
        | paren l t v sub => simp [neverAddressableKind] at h
        | tuple l t v d => simp [neverAddressableKind] at h
        | tupleElement l t v d => simp [neverAddressableKind] at h
        | lookThroughOneof l t v sub => simp [neverAddressableKind] at h
        | declRef l t v d => simp [neverAddressableKind] at h
        | unchecked l t v d => simp [neverAddressableKind] at h

/-- Witness for C7 at the integer literal 5 in both value-kind
classifications. -/
theorem C7_witness :
    emitLValue defaultEnv (Expr.intLit 0 0 ValueKind.rvalue 5) defaultTypeInfo s0 =
      Except.error (Fatal.assertFail "getValueKind == ValueKind::LValue") ∧
    (∃ f, emitLValue defaultEnv (Expr.intLit 0 1 ValueKind.lvalue 5) defaultTypeInfo s0 =
      Except.error f) :=
  And.intro
    ((C7_emitLValue_precondition defaultEnv (Expr.intLit 0 0 ValueKind.rvalue 5)
      defaultTypeInfo s0).1 rfl)
    ((C7_emitLValue_precondition defaultEnv (Expr.intLit 0 1 ValueKind.lvalue 5)
      defaultTypeInfo s0).2 rfl)

/-- C8: a load expression is transparent for the r-value and exploded paths,
invalid for emitLValue, and tryEmitAsLValue on it emits the l-value of the
sub-expression — in particular the stack address of a local variable. -/
theorem C8_load_transparent (env : Env) (l : Nat) (t : Ty) (v : ValueKind) (sub : Expr)
    (tinfo : TypeInfo) (ex : Explosion) (s : IGFState) :
    emitRValue env (Expr.load l t v sub) tinfo = emitRValue env sub tinfo ∧
    emitExplodedRValue env (Expr.load l t v sub) ex = emitExplodedRValue env sub ex ∧
    (∃ f, emitLValue env (Expr.load l t v sub) tinfo s = Except.error f) ∧
    (v = ValueKind.rvalue →
       tryEmitAsLValue env (Expr.load l t v sub) tinfo s =
         (emitLValue env sub tinfo >>= fun lv => pure (some lv)) s) ∧
    (∀ l2 t2 d, v = ValueKind.rvalue → d.kind = DeclKind.var → d.isLocalContext = true →
       sub = Expr.declRef l2 t2 ValueKind.lvalue d →
       tryEmitAsLValue env (Expr.load l t v sub) tinfo s =
         Except.ok (some (emitAddressLValue (env.getLocal d)), s)) := by
  refine ⟨rfl, rfl, ?_, ?_, ?_⟩
  · cases v with
    | rvalue => exact ⟨_, emitLValue_rvalue_assert env _ tinfo s rfl⟩
    | lvalue =>
        exact ⟨Fatal.unreachable "these expression kinds should never be l-values",
          by simp [emitLValue, ensure, Expr.getValueKind, throw, throwThe,
            MonadExceptOf.throw, Bind.bind, StateT.bind, StateT.lift, Except.bind,
            pure, StateT.pure, Except.pure]⟩
  · intro hv
    subst hv
    simp [tryEmitAsLValue, Expr.getValueKind]
  · intro l2 t2 d hv hk hl hsub
    subst hv
    subst hsub
    simp [tryEmitAsLValue, Expr.getValueKind, emitLValue, ensure, emitDeclRefLValue, hk, hl,
      emitAddressLValue, pure, StateT.pure, Except.pure, Bind.bind, StateT.bind, Except.bind]

/-- Witness for C8 at a load of the concrete local variable. -/
theorem C8_witness :
    tryEmitAsLValue defaultEnv (Expr.load 0 0 ValueKind.rvalue eLocal) defaultTypeInfo s0 =
      Except.ok (some (emitAddressLValue (defaultEnv.getLocal dVar)), s0) :=
  (C8_load_transparent defaultEnv 0 0 ValueKind.rvalue eLocal defaultTypeInfo
      (Explosion.mk ExplosionKind.minimal []) s0).2.2.2.2 1 0 dVar rfl rfl rfl rfl

/-- C9: every unimplemented dispatch branch — function, closure and
anonymous-closure-argument literals as r-values and as exploded scalars, the
ElementRef declaration reference as r-value, and the ElementRef and
OneOfElement declaration references as l-values — records exactly one
diagnostic and returns, without aborting, a placeholder whose shape matches
the type's value schema: undefined scalars per slot of a scalar schema, an
undefined pointer to the aggregate type otherwise, and for the l-value
branch an undefined address of the pointer type to the storage type at the
storage alignment. -/
theorem C9_unimplemented_recovery (env : Env) (l : Nat) (t : Ty) (v : ValueKind)
    (data : Nat) (tinfo : TypeInfo) (s : IGFState) (ex : Explosion) :
    emitRValue env (Expr.closure l t v data) tinfo s =
      Except.ok (emitFakeRValue tinfo,
        s.addDiag (Diag.mk l "cannot generate r-values for this expression yet")) ∧
    emitRValue env (Expr.funcExpr l t v data) tinfo s =
      Except.ok (emitFakeRValue tinfo,
        s.addDiag (Diag.mk l "cannot generate r-values for this expression yet")) ∧
    emitRValue env (Expr.anonClosureArg l t v data) tinfo s =
      Except.ok (emitFakeRValue tinfo,
        s.addDiag (Diag.mk l "cannot generate r-values for this expression yet")) ∧
    emitExplodedRValue env (Expr.closure l t v data) ex s =
      Except.ok (emitFakeExplosion env (env.typeInfo t) ex,
        s.addDiag (Diag.mk l "cannot explode r-values for this expression yet")) ∧
    emitExplodedRValue env (Expr.funcExpr l t v data) ex s =
      Except.ok (emitFakeExplosion env (env.typeInfo t) ex,
        s.addDiag (Diag.mk l "cannot explode r-values for this expression yet")) ∧
    emitExplodedRValue env (Expr.anonClosureArg l t v data) ex s =
      Except.ok (emitFakeExplosion env (env.typeInfo t) ex,
        s.addDiag (Diag.mk l "cannot explode r-values for this expression yet")) ∧
    (∀ d : ValueDecl, d.kind = DeclKind.elementRef →
       emitDeclRefRValue env l d tinfo s =
         Except.ok (emitFakeRValue tinfo,
           s.addDiag (Diag.mk l "emitting this decl as an r-value"))) ∧
    (∀ d : ValueDecl, d.kind = DeclKind.elementRef ∨ d.kind = DeclKind.oneOfElement →
       emitDeclRefLValue env l d tinfo s =
         Except.ok (emitFakeLValue tinfo,
           s.addDiag (Diag.mk l "emitting this decl as an l-value"))) ∧
    (∀ tys, tinfo.schema = RValueSchema.scalar tys →
       emitFakeRValue tinfo = RValue.forScalars (tys.map Value.undef)) ∧
    (∀ aggTy, tinfo.schema = RValueSchema.aggregate aggTy →
       emitFakeRValue tinfo = RValue.forAggregate (Value.undef (LLVMType.ptr aggTy))) ∧
    emitFakeLValue tinfo = emitAddressLValue
      (Address.mk (Value.undef (LLVMType.ptr tinfo.storageType)) tinfo.storageAlignment) := by
  refine ⟨?_, ?_, ?_, ?_, ?_, ?_, ?_, ?_, ?_, ?_, ?_⟩
  · simp [emitRValue, unimplemented, modify, modifyGet, MonadStateOf.modifyGet,
      StateT.modifyGet, Bind.bind, StateT.bind, Except.bind, pure, StateT.pure, Except.pure]
  · simp [emitRValue, unimplemented, modify, modifyGet, MonadStateOf.modifyGet,
      StateT.modifyGet, Bind.bind, StateT.bind, Except.bind, pure, StateT.pure, Except.pure]
  · simp [emitRValue, unimplemented, modify, modifyGet, MonadStateOf.modifyGet,
      StateT.modifyGet, Bind.bind, StateT.bind, Except.bind, pure, StateT.pure, Except.pure]
  · simp [emitExplodedRValue, unimplemented, modify, modifyGet, MonadStateOf.modifyGet,
      StateT.modifyGet, Bind.bind, StateT.bind, Except.bind, pure, StateT.pure, Except.pure]
  · simp [emitExplodedRValue, unimplemented, modify, modifyGet, MonadStateOf.modifyGet,
      StateT.modifyGet, Bind.bind, StateT.bind, Except.bind, pure, StateT.pure, Except.pure]
  · simp [emitExplodedRValue, unimplemented, modify, modifyGet, MonadStateOf.modifyGet,
      StateT.modifyGet, Bind.bind, StateT.bind, Except.bind, pure, StateT.pure, Except.pure]
  · intro d hk
    simp [emitDeclRefRValue, hk, unimplemented, modify, modifyGet, MonadStateOf.modifyGet,
      StateT.modifyGet, Bind.bind, StateT.bind, Except.bind, pure, StateT.pure, Except.pure]
  · intro d hk
    rcases hk with hk | hk <;>
      simp [emitDeclRefLValue, hk, unimplemented, modify, modifyGet, MonadStateOf.modifyGet,
        StateT.modifyGet, Bind.bind, StateT.bind, Except.bind, pure, StateT.pure, Except.pure]
  · intro tys hsch
    simp [emitFakeRValue, hsch]
  · intro aggTy hsch
    simp [emitFakeRValue, hsch]
  · rfl

/-- Witness for C9 at a concrete ElementRef declaration as r-value, a
concrete OneOfElement declaration as l-value, and the concrete
scalar-schema type. -/
theorem C9_witness :
    emitDeclRefRValue defaultEnv 0 dElemRef defaultTypeInfo s0 =
      Except.ok (emitFakeRValue defaultTypeInfo,
        s0.addDiag (Diag.mk 0 "emitting this decl as an r-value")) ∧
    emitDeclRefLValue defaultEnv 0 dOneOf defaultTypeInfo s0 =
      Except.ok (emitFakeLValue defaultTypeInfo,
        s0.addDiag (Diag.mk 0 "emitting this decl as an l-value")) ∧
    emitFakeRValue defaultTypeInfo = RValue.forScalars ([LLVMType.named 0].map Value.undef) :=
  And.intro
    ((C9_unimplemented_recovery defaultEnv 0 0 ValueKind.rvalue 0 defaultTypeInfo s0
      (Explosion.mk ExplosionKind.minimal [])).2.2.2.2.2.2.1 dElemRef rfl)
    (And.intro
      ((C9_unimplemented_recovery defaultEnv 0 0 ValueKind.rvalue 0 defaultTypeInfo s0
        (Explosion.mk ExplosionKind.minimal [])).2.2.2.2.2.2.2.1 dOneOf (Or.inr rfl))
      ((C9_unimplemented_recovery defaultEnv 0 0 ValueKind.rvalue 0 defaultTypeInfo s0
        (Explosion.mk ExplosionKind.minimal [])).2.2.2.2.2.2.2.2.1 [LLVMType.named 0] rfl))

/-- C10: emitAsPrimitiveScalar requires its expression to explode to exactly
one scalar — zero scalars underflow the claimNext pop, one scalar is
returned with the explosion drained, two or more fault the emptiness
assertion. -/
theorem C10_primitive_scalar_contract (env : Env) (e : Expr) (s s2 : IGFState)
    (ex : Explosion)
    (h : emitExplodedRValue env e (Explosion.mk ExplosionKind.minimal []) s =
      Except.ok (ex, s2)) :
    (ex.values = [] → emitAsPrimitiveScalar env e s = Except.error Fatal.underflow) ∧
    (∀ val, ex.values = [val] → emitAsPrimitiveScalar env e s = Except.ok (val, s2)) ∧
    (∀ val val2 rest, ex.values = val :: val2 :: rest →
       emitAsPrimitiveScalar env e s =
         Except.error (Fatal.assertFail "explosion.empty()")) := by
  obtain ⟨k, vals⟩ := ex
  refine ⟨?_, ?_, ?_⟩
  · intro hv
    subst hv
    simp [emitAsPrimitiveScalar, Bind.bind, StateT.bind, h, Except.bind, Explosion.claimNext,
      throw, throwThe, MonadExceptOf.throw, StateT.lift, ensure, Explosion.empty,
      pure, StateT.pure, Except.pure]
  · intro val hv
    subst hv
    simp [emitAsPrimitiveScalar, Bind.bind, StateT.bind, h, Except.bind, Explosion.claimNext,
      throw, throwThe, MonadExceptOf.throw, StateT.lift, ensure, Explosion.empty,
      pure, StateT.pure, Except.pure]
  · intro val val2 rest hv
    subst hv
    simp [emitAsPrimitiveScalar, Bind.bind, StateT.bind, h, Except.bind, Explosion.claimNext,
      throw, throwThe, MonadExceptOf.throw, StateT.lift, ensure, Explosion.empty,
      pure, StateT.pure, Except.pure]

/-- Witness for C10 at the integer literal 7, which explodes to exactly one
scalar under the concrete environment. -/
theorem C10_witness :
    emitAsPrimitiveScalar defaultEnv (Expr.intLit 0 0 ValueKind.rvalue 7) s0 =
      Except.ok (Value.constInt 7, s0) :=
  (C10_primitive_scalar_contract defaultEnv (Expr.intLit 0 0 ValueKind.rvalue 7) s0 s0
      (Explosion.mk ExplosionKind.minimal [Value.constInt 7]) rfl).2.1 (Value.constInt 7) rfl

end GenExpr
